import Mathlib

/-!
Verification development for the PA-alerts ingestion pipeline
(`src/maps/app.js`, current version: the first file segment, lines 1-452).

The JavaScript source is shallowly embedded below.  Conventions:

* Coordinates are modelled as integers (the source's decimal lat/lng values,
  scaled by 10, e.g. `39.5 ↦ 395`); every comparison in the source is a plain
  order comparison, so the scaling is order-preserving and faithful.
* Network activity is modelled by environments: a `Response` record gives, for
  each request, the time (ms) until the response completes, the HTTP status,
  and the parsed body.  `fetchJsonWithTimeout` then computes the outcome the
  way the source's combined abort-controller logic does.
* The wall clock advances only at network awaits; each run's `ZoneState.clock`
  is the elapsed time since that run's `start` timestamp.
* Async exceptions are modelled with the `NetResult` sum; code that catches
  them (`mapWithConcurrency`'s per-item catch) maps them to `none`.
-/

namespace PAAlerts

/-- A `[lng, lat]` coordinate pair (source keeps GeoJSON order lng-first). -/
structure Coord where
  lng : Int
  lat : Int
deriving DecidableEq, Repr

/-- GeoJSON geometry as the source consumes it: `Polygon` is a list of linear
rings, `MultiPolygon` a list of polygons.  These are the only two shapes the
source's merge / bbox helpers inspect. -/
inductive Geometry where
  | polygon (rings : List (List Coord))
  | multiPolygon (polys : List (List (List Coord)))
deriving DecidableEq, Repr

/-- A Leaflet `LatLngBounds` rectangle (south-west / north-east corners). -/
structure LatLngBounds where
  swLat : Int
  swLng : Int
  neLat : Int
  neLng : Int
deriving DecidableEq, Repr

/-- A bounding box in the shape `bboxFromCoords` produces. -/
structure BBox where
  minLat : Int
  minLng : Int
  maxLat : Int
  maxLng : Int
deriving DecidableEq, Repr

/-- All coordinate points of a geometry (the set of points Leaflet's
`getBounds` ranges over). -/
def geomPoints : Geometry → List Coord
  | .polygon rings => rings.flatten
  | .multiPolygon polys => (polys.map (·.flatten)).flatten

/-- Bounding box of a point list; `none` when there are no points, matching
Leaflet's `bounds.isValid()` being false for an empty layer. -/
def bboxOfPoints : List Coord → Option BBox
  | [] => none
  | p :: rest =>
    some (rest.foldl
      (fun b q =>
        { minLat := min b.minLat q.lat, minLng := min b.minLng q.lng,
          maxLat := max b.maxLat q.lat, maxLng := max b.maxLng q.lng })
      { minLat := p.lat, minLng := p.lng, maxLat := p.lat, maxLng := p.lng })

/-- `bboxIntersectsBounds` (src/maps/app.js:168-173): rectangle overlap test,
boundary contact counts as overlap.  Leaflet's `LatLngBounds.intersects`
(used by `featureIntersectsBounds`, lines 288-297) has the same semantics. -/
def bboxIntersectsBounds (b : BBox) (w : LatLngBounds) : Bool :=
  !(b.maxLng < w.swLng || b.minLng > w.neLng || b.maxLat < w.swLat || b.minLat > w.neLat)

/-- `featureIntersectsBounds` (src/maps/app.js:288-297): build the feature's
bounds from all its coordinates; invalid (empty) bounds yield `false`. -/
def featureIntersectsBounds (g : Geometry) (w : LatLngBounds) : Bool :=
  match bboxOfPoints (geomPoints g) with
  | none => false
  | some b => bboxIntersectsBounds b w

/-- `VIEW_BOUNDS` (src/maps/app.js:12-15), scaled by 10:
SW = (39.5, -80.7), NE = (42.6, -74.2). -/
def VIEW_BOUNDS : LatLngBounds :=
  { swLat := 395, swLng := -807, neLat := 426, neLng := -742 }

/-- An NWS alert feature, restricted to the fields the pipeline reads:
`properties.event`, `geometry`, `properties.affectedZones`.
`affectedZones := none` models a missing / non-array property. -/
structure Alert where
  event : String
  geometry : Option Geometry
  affectedZones : Option (List String)
deriving DecidableEq, Repr

/-- Substring test (JavaScript `String.prototype.includes`). -/
def strContainsSub (s pat : String) : Bool :=
  s.data.tails.any (fun t => pat.data.isPrefixOf t)

/-- `isWWA` (src/maps/app.js:58-61): the lowercased event name contains
"warning", "watch" or "advisory". -/
def isWWA (a : Alert) : Bool :=
  let e := String.mk (a.event.data.map Char.toLower)
  strContainsSub e "warning" || strContainsSub e "watch" || strContainsSub e "advisory"

/-- `isPAForecastZoneUrl` (src/maps/app.js:64-67): the regex
`/\/zones\/forecast\/PAZ\d{3}$/i` — the string ends with three digits,
immediately preceded (case-insensitively) by "/zones/forecast/PAZ".
We check the reversed character list: three digits, then the reversal of
the lowercased literal. -/
def isPAForecastZoneUrl (url : String) : Bool :=
  match url.data.reverse with
  | d1 :: d2 :: d3 :: rest =>
    d1.isDigit && d2.isDigit && d3.isDigit &&
      "zap/tsacerof/senoz/".data.isPrefixOf (rest.map Char.toLower)
  | _ => false

/-- Outcome of an awaited `fetchJsonWithTimeout` call: success with the parsed
body, an abort rejection (`AbortError`, raised by the combined controller for
either the internal timeout or the external signal), or the thrown
`HTTP <status>` error for a non-2xx response. -/
inductive NetResult (α : Type) where
  | ok (body : α)
  | abortError
  | httpError (status : Nat)
deriving DecidableEq, Repr

/-- The upstream server's behaviour for one request: how long the response
takes, its status, and its parsed body. -/
structure Response (α : Type) where
  time : Nat
  status : Nat
  body : α
deriving DecidableEq, Repr

/-- The state of the run's `AbortController` signal as seen by one
`fetchJsonWithTimeout` call: whether the signal had already fired before the
call registered its listener, and (otherwise) when it will fire, if ever. -/
structure Signal where
  alreadyAborted : Bool
  firesAt : Option Nat
deriving DecidableEq, Repr

/-- A signal that never fires (no newer run supersedes this one). -/
def quietSignal : Signal := { alreadyAborted := false, firesAt := none }

/-- A signal that fired before the call started.  Key source behaviour
(src/maps/app.js:270): `signal.addEventListener("abort", abortBoth, {once:
true})` only reacts to a FUTURE abort event, so a signal that is already
aborted when `fetchJsonWithTimeout` is entered never aborts the combined
controller. -/
def abortedSignal : Signal := { alreadyAborted := true, firesAt := none }

/-- When the external signal aborts the combined controller, per the listener
registration at src/maps/app.js:270: never, if it had already fired. -/
def externalAbortAt (sig : Signal) : Option Nat :=
  if sig.alreadyAborted then none else sig.firesAt

/-- First moment the combined controller aborts: the internal timer at `ms`
(src/maps/app.js:266) or the external signal's future abort, whichever is
earlier. -/
def combinedAbortAt (ms : Nat) (sig : Signal) : Nat :=
  match externalAbortAt sig with
  | none => ms
  | some t => min ms t

/-- JavaScript `res.ok`: status in [200, 300). -/
def statusOk (s : Nat) : Bool := 200 ≤ s && s < 300

/-- `fetchJsonWithTimeout` (src/maps/app.js:264-286).  Returns the outcome and
the elapsed time the await consumed.  If the combined controller aborts before
the response completes, the fetch rejects with `AbortError`; otherwise a
non-2xx status throws `HTTP <status>`, else the body is returned. -/
def fetchJsonWithTimeout {α : Type} (ms : Nat) (sig : Signal) (resp : Response α) :
    NetResult α × Nat :=
  if combinedAbortAt ms sig < resp.time then (.abortError, combinedAbortAt ms sig)
  else if !statusOk resp.status then (.httpError resp.status, resp.time)
  else (.ok resp.body, resp.time)

/-- The anti-freeze tunables (src/maps/app.js:249-254) plus the view window.
The source holds them in module-level constants; `defaultConfig` below carries
their values. -/
structure Config where
  mainAlertsTimeoutMs : Nat
  zoneTimeoutMs : Nat
  overallTimeBudgetMs : Nat
  globalZoneFetchCap : Nat
  zoneFetchConcurrency : Nat
  maxZonesPerAlert : Nat
  viewBounds : LatLngBounds
deriving DecidableEq, Repr

/-- The constant values at src/maps/app.js:249-254 and the `VIEW_BOUNDS`
window. -/
def defaultConfig : Config :=
  { mainAlertsTimeoutMs := 15000, zoneTimeoutMs := 7000,
    overallTimeBudgetMs := 20000, globalZoneFetchCap := 50,
    zoneFetchConcurrency := 6, maxZonesPerAlert := 15,
    viewBounds := VIEW_BOUNDS }

/-- Upstream behaviour of the zone endpoints: for each zone URL, the response
and its (optional) `geometry` field (`zone?.geometry || null`,
src/maps/app.js:323). -/
def ZoneEnv : Type := String → Response (Option Geometry)

/-- Per-run mutable state threaded through alert resolution:
`zoneFetches` is `counters.zoneFetches` (src/maps/app.js:383), `cache` is
`zoneGeomCache` (line 256; it outlives runs, so it is an input/output here),
`clock` is the elapsed wall-clock time since the run's `start` timestamp, and
`netFetches` instruments how many network requests were actually issued. -/
structure ZoneState where
  zoneFetches : Nat
  netFetches : Nat
  clock : Nat
  cache : List (String × Option Geometry)
deriving DecidableEq, Repr

/-- `fetchZoneGeometry` (src/maps/app.js:319-327).  A cached URL is answered
without any network activity; otherwise the zone record is fetched with the
per-zone timeout, its geometry (or `null`) is cached, and fetch failures
propagate as exceptions (the cache is not written on failure). -/
def fetchZoneGeometry (cfg : Config) (env : ZoneEnv) (sig : Signal)
    (st : ZoneState) (z : String) : NetResult (Option Geometry) × ZoneState :=
  match st.cache.lookup z with
  | some cached => (.ok cached, st)
  | none =>
    let (r, dt) := fetchJsonWithTimeout cfg.zoneTimeoutMs sig (env z)
    let st' := { st with netFetches := st.netFetches + 1, clock := st.clock + dt }
    match r with
    | .ok geom => (.ok geom, { st' with cache := (z, geom) :: st'.cache })
    | .abortError => (.abortError, st')
    | .httpError s => (.httpError s, st')

/-- `mergeToMultiPolygon` (src/maps/app.js:329-337): concatenate the ring
groups of the (non-null) inputs; a Polygon contributes one group, a
MultiPolygon all of its groups; no inputs yields `null`. -/
def mergeToMultiPolygon (geoms : List Geometry) : Option Geometry :=
  let coords := geoms.foldl
    (fun acc g =>
      match g with
      | .polygon rings => acc ++ [rings]
      | .multiPolygon polys => acc ++ polys)
    []
  if coords.isEmpty then none else some (.multiPolygon coords)

/-- The per-zone worker body handed to `mapWithConcurrency` inside
`ensureAlertGeometry` (src/maps/app.js:358-369): re-check the global cap
immediately before spending a slot; increment the shared counter; fetch the
zone geometry (cache first); drop `null` geometries and geometries whose
bounds miss the view window.  A thrown fetch error is caught by
`mapWithConcurrency`'s per-item catch (line 307) and recorded as `null`;
that catch is inlined here as the two failure branches.  The cap check and
the counter increment are consecutive synchronous statements — no await
separates them — so they form one atomic step under the single-threaded
event loop, which is what this function models. -/
def zoneMapper (cfg : Config) (env : ZoneEnv) (sig : Signal)
    (st : ZoneState) (z : String) : ZoneState × Option Geometry :=
  if st.zoneFetches ≥ cfg.globalZoneFetchCap then (st, none)
  else
    let st1 := { st with zoneFetches := st.zoneFetches + 1 }
    match fetchZoneGeometry cfg env sig st1 z with
    | (.ok (some geom), st2) =>
      if featureIntersectsBounds geom cfg.viewBounds then (st2, some geom) else (st2, none)
    | (.ok none, st2) => (st2, none)
    | (.abortError, st2) => (st2, none)
    | (.httpError _, st2) => (st2, none)

/-- The sequential schedule of `mapWithConcurrency` over the zone list
(src/maps/app.js:299-317, 355-371): results are positional; the state is
threaded through the worker invocations.  `MapperExec` below is the
schedule-independent relational model of the same loop, and
`C6_mapper_positional_results` shows every schedule produces these
positional results. -/
def mapZones (cfg : Config) (env : ZoneEnv) (sig : Signal) :
    ZoneState → List String → ZoneState × List (Option Geometry)
  | st, [] => (st, [])
  | st, z :: zs =>
    let (st1, g) := zoneMapper cfg env sig st z
    let (st2, gs) := mapZones cfg env sig st1 zs
    (st2, g :: gs)

/-- `ensureAlertGeometry` (src/maps/app.js:339-377).  Cheap path first: an
alert that already carries geometry is returned unchanged.  Otherwise the
affected-zone list is filtered to PA forecast zones, truncated to the
per-alert maximum and then to whatever remains of the global cap, fetched
with limited concurrency, window-culled per zone, and merged. -/
def ensureAlertGeometry (cfg : Config) (env : ZoneEnv) (sig : Signal)
    (st : ZoneState) (a : Alert) : Alert × ZoneState :=
  match a.geometry with
  | some _ => (a, st)
  | none =>
    let zones0 := a.affectedZones.getD []
    if zones0.isEmpty then (a, st)
    else
      let zones1 := zones0.filter isPAForecastZoneUrl
      if zones1.isEmpty then (a, st)
      else
        let zones2 := zones1.take cfg.maxZonesPerAlert
        let remaining := cfg.globalZoneFetchCap - st.zoneFetches
        if remaining = 0 then (a, st)
        else
          let zones3 := zones2.take remaining
          let (st', geoms) := mapZones cfg env sig st zones3
          match mergeToMultiPolygon (geoms.filterMap id) with
          | none => (a, st')
          | some merged => ({ a with geometry := some merged }, st')

/-- Whether an alert feature's geometry intersects a rectangle
(`featureIntersectsBounds(feature, bounds)` applied to a whole feature:
a feature without geometry has invalid bounds, hence `false`). -/
def alertIntersectsBounds (a : Alert) (w : LatLngBounds) : Bool :=
  match a.geometry with
  | some g => featureIntersectsBounds g w
  | none => false

/-- One iteration body of the per-alert loop in `fetchAlerts`
(src/maps/app.js:408-423), after the time-budget check: an alert that already
has geometry is window-tested directly; otherwise it goes through
`ensureAlertGeometry` and the resolved feature is window-tested at the final
output gate (line 422). -/
def processOneAlert (cfg : Config) (env : ZoneEnv) (sig : Signal)
    (st : ZoneState) (acc : List Alert) (f : Alert) : ZoneState × List Alert :=
  match f.geometry with
  | some _ =>
    (st, if alertIntersectsBounds f cfg.viewBounds then f :: acc else acc)
  | none =>
    let (withGeom, st') := ensureAlertGeometry cfg env sig st f
    (st',
      if withGeom.geometry.isSome && alertIntersectsBounds withGeom cfg.viewBounds
      then withGeom :: acc else acc)

/-- The per-alert loop of `fetchAlerts` (src/maps/app.js:400-423): at the top
of each iteration the elapsed wall-clock time is compared against the overall
time budget (`Date.now() - start > OVERALL_TIME_BUDGET_MS`, line 404); if it
is exceeded the loop breaks immediately, keeping the accumulated output.
`acc` holds the pushed alerts in reverse. -/
def processAlertsLoop (cfg : Config) (env : ZoneEnv) (sig : Signal) :
    List Alert → ZoneState → List Alert → List Alert × ZoneState
  | [], st, acc => (acc.reverse, st)
  | f :: rest, st, acc =>
    if cfg.overallTimeBudgetMs < st.clock then (acc.reverse, st)
    else
      let (st', acc') := processOneAlert cfg env sig st acc f
      processAlertsLoop cfg env sig rest st' acc'

/-- Reference loop used to state C5: identical to `processAlertsLoop` but
with no time-budget check, so it always processes its whole input.  C5 shows
the budget-limited loop equals this loop run on a prefix of the input. -/
def processAlertsUnbounded (cfg : Config) (env : ZoneEnv) (sig : Signal) :
    List Alert → ZoneState → List Alert → List Alert × ZoneState
  | [], st, acc => (acc.reverse, st)
  | f :: rest, st, acc =>
    let (st', acc') := processOneAlert cfg env sig st acc f
    processAlertsUnbounded cfg env sig rest st' acc'

/-- Upstream behaviour for one run: the main active-alerts response
(`data.features` as its body) and the zone endpoints. -/
structure RunEnv where
  mainResp : Response (List Alert)
  zoneEnv : ZoneEnv

/-- What a successful run returns: the final output collection, the
"(partial)" flag of the status line (src/maps/app.js:437), and the final
per-run state. -/
structure RunResult where
  output : List Alert
  partialFlag : Bool
  finalState : ZoneState
deriving DecidableEq, Repr

/-- `fetchAlerts` (src/maps/app.js:380-448) up to rendering: fresh counters,
main fetch with the main timeout, W/W/A filter, per-alert loop under the time
budget, then the partial flag is recomputed from the clock (line 437).  A
main-fetch failure escapes the whole run (the `catch` at line 440 only sets
status text). -/
def fetchAlertsRun (cfg : Config) (renv : RunEnv) (sig : Signal)
    (cache0 : List (String × Option Geometry)) : NetResult RunResult :=
  match fetchJsonWithTimeout cfg.mainAlertsTimeoutMs sig renv.mainResp with
  | (.ok features, dt) =>
    let st0 : ZoneState := { zoneFetches := 0, netFetches := 0, clock := dt, cache := cache0 }
    let wwa := features.filter isWWA
    let (out, st) := processAlertsLoop cfg renv.zoneEnv sig wwa st0 []
    .ok { output := out, partialFlag := cfg.overallTimeBudgetMs < st.clock,
          finalState := st }
  | (.abortError, _) => .abortError
  | (.httpError s, _) => .httpError s

/-- The user-visible alert layer after one run: on success the layer is
cleared and replaced with the run's output (src/maps/app.js:426-427); on any
failure the `catch` block only updates the status text and the layer keeps
its previous contents. -/
def fetchAlertsRender (cfg : Config) (renv : RunEnv) (sig : Signal)
    (cache0 : List (String × Option Geometry)) (prevLayer : List Alert) : List Alert :=
  match fetchAlertsRun cfg renv sig cache0 with
  | .ok r => r.output
  | .abortError => prevLayer
  | .httpError _ => prevLayer

/-- Final zone-fetch counter of a run (0 for a failed run, which performs no
zone fetches). -/
def runZoneFetchCount : NetResult RunResult → Nat
  | .ok r => r.finalState.zoneFetches
  | _ => 0

/-- Network requests actually issued for zones during a run. -/
def runNetFetchCount : NetResult RunResult → Nat
  | .ok r => r.finalState.netFetches
  | _ => 0

/-! ### Relational model of `mapWithConcurrency` (src/maps/app.js:299-317)

`mapWithConcurrency` starts `min(limit, items.length)` workers; each worker
repeatedly claims the next index (`const idx = i++`, a synchronous atomic step
under the event loop), awaits `mapper(items[idx], idx)`, and writes the result
— or `null` when the mapper threw — into `results[idx]`.  The model below is a
small-step transition system over all interleavings: a `claim` step takes the
next index (at most `W` indices may be held by workers at once), and a
`finish` step completes any claimed index, writing its slot.  Slot values are
`Option σ`: `none` = not yet written, `some v` = written `v`. -/

/-- Shared state of the worker pool: `nextIdx` is the shared counter `i`,
`claimed` the indices currently held by in-flight workers, `results` the
output array (`none` = unwritten slot). -/
structure MapperState (σ : Type) where
  nextIdx : Nat
  claimed : List Nat
  results : List (Option σ)
deriving DecidableEq, Repr

/-- Initial pool state: `i = 0`, no in-flight work,
`results = new Array(items.length)` (all slots unwritten). -/
def mwcInit (σ : Type) (n : Nat) : MapperState σ :=
  { nextIdx := 0, claimed := [], results := List.replicate n none }

/-- One scheduler step of the worker pool: `outcome idx` is the value the
worker eventually writes into slot `idx` (the mapper's result, or the
caught-exception `null` — it depends only on `items[idx]` and `idx`). -/
inductive MwcStep (n W : Nat) (outcome : Nat → σ) :
    MapperState σ → MapperState σ → Prop where
  | claim (s : MapperState σ) (h : s.nextIdx < n) (hW : s.claimed.length < W) :
      MwcStep n W outcome s
        { nextIdx := s.nextIdx + 1, claimed := s.nextIdx :: s.claimed,
          results := s.results }
  | finish (s : MapperState σ) (idx : Nat) (h : idx ∈ s.claimed) :
      MwcStep n W outcome s
        { nextIdx := s.nextIdx, claimed := s.claimed.erase idx,
          results := s.results.set idx (some (outcome idx)) }

/-- Finitely many scheduler steps (an arbitrary interleaving). -/
inductive MwcExec (n W : Nat) (outcome : Nat → σ) :
    MapperState σ → MapperState σ → Prop where
  | refl (s : MapperState σ) : MwcExec n W outcome s s
  | tail {s t u : MapperState σ} :
      MwcExec n W outcome s t → MwcStep n W outcome t u → MwcExec n W outcome s u

/-- The execution invariant of the worker pool. -/
structure MwcInv (n : Nat) (outcome : Nat → σ) (s : MapperState σ) : Prop where
  lenOk : s.results.length = n
  idxLe : s.nextIdx ≤ n
  claimedLt : ∀ j ∈ s.claimed, j < s.nextIdx
  nodup : s.claimed.Nodup
  finished : ∀ k, k < s.nextIdx → k ∉ s.claimed →
    s.results.get? k = some (some (outcome k))
  unfinished : ∀ k, k < n → (s.nextIdx ≤ k ∨ k ∈ s.claimed) →
    s.results.get? k = some none

/-- `results[idx] = await mapper(...)` with the per-item `catch` mapping a
thrown exception to `null` (src/maps/app.js:306-307). -/
def caughtToNull {β : Type} : Except Unit β → Option β
  | .ok b => some b
  | .error _ => none

/-- The value worker `idx` writes into its slot: the mapper's outcome on
`items[idx]`, with failures caught as `null`. -/
def mwcOutcome {α β : Type} (items : List α) (run : α → Nat → Except Unit β)
    (k : Nat) : Option β :=
  match items.get? k with
  | some x => caughtToNull (run x k)
  | none => none

/-! ### Counter invariants (towards C1) -/

/-- Cap invariant on the per-run state: network requests never outnumber the
consumed counter units, and the counter never exceeds the global cap. -/
def ZoneCapInv (cap : Nat) (st : ZoneState) : Prop :=
  st.netFetches ≤ st.zoneFetches ∧ st.zoneFetches ≤ cap

/-- Reference ("spec-side") per-zone worker for C7, following the spec
sentence "only the merged, final geometry is checked against the window at
the final gate": identical to `zoneMapper` but WITHOUT the zone-level window
cull, so every successfully resolved geometry reaches the merge. -/
def zoneMapperFinalGateOnly (cfg : Config) (env : ZoneEnv) (sig : Signal)
    (st : ZoneState) (z : String) : ZoneState × Option Geometry :=
  if st.zoneFetches ≥ cfg.globalZoneFetchCap then (st, none)
  else
    let st1 := { st with zoneFetches := st.zoneFetches + 1 }
    match fetchZoneGeometry cfg env sig st1 z with
    | (.ok (some geom), st2) => (st2, some geom)
    | (.ok none, st2) => (st2, none)
    | (.abortError, st2) => (st2, none)
    | (.httpError _, st2) => (st2, none)

/-- Sequential worker run for the reference resolver. -/
def mapZonesFinalGateOnly (cfg : Config) (env : ZoneEnv) (sig : Signal) :
    ZoneState → List String → ZoneState × List (Option Geometry)
  | st, [] => (st, [])
  | st, z :: zs =>
    let (st1, g) := zoneMapperFinalGateOnly cfg env sig st z
    let (st2, gs) := mapZonesFinalGateOnly cfg env sig st1 zs
    (st2, g :: gs)

/-- Reference ("spec-side") resolver for C7: like `ensureAlertGeometry`, but
with no window check before the final gate. -/
def ensureAlertGeometryFinalGateOnly (cfg : Config) (env : ZoneEnv) (sig : Signal)
    (st : ZoneState) (a : Alert) : Alert × ZoneState :=
  match a.geometry with
  | some _ => (a, st)
  | none =>
    let zones0 := a.affectedZones.getD []
    if zones0.isEmpty then (a, st)
    else
      let zones1 := zones0.filter isPAForecastZoneUrl
      if zones1.isEmpty then (a, st)
      else
        let zones2 := zones1.take cfg.maxZonesPerAlert
        let remaining := cfg.globalZoneFetchCap - st.zoneFetches
        if remaining = 0 then (a, st)
        else
          let zones3 := zones2.take remaining
          let (st', geoms) := mapZonesFinalGateOnly cfg env sig st zones3
          match mergeToMultiPolygon (geoms.filterMap id) with
          | none => (a, st')
          | some merged => ({ a with geometry := some merged }, st')

/-- Inclusion decision the code makes for a geometry-less alert: resolve via
`ensureAlertGeometry`, then apply the final output gate
(src/maps/app.js:413-422). -/
def includeAlertCode (cfg : Config) (env : ZoneEnv) (sig : Signal)
    (st : ZoneState) (f : Alert) : Bool :=
  let (wg, _) := ensureAlertGeometry cfg env sig st f
  wg.geometry.isSome && alertIntersectsBounds wg cfg.viewBounds

/-- Inclusion decision under the spec-side reading of C7 (window checked only
on the merged geometry, at the final gate). -/
def includeAlertFinalGateOnly (cfg : Config) (env : ZoneEnv) (sig : Signal)
    (st : ZoneState) (f : Alert) : Bool :=
  let (wg, _) := ensureAlertGeometryFinalGateOnly cfg env sig st f
  wg.geometry.isSome && alertIntersectsBounds wg cfg.viewBounds

/-! ### Concrete scenario data used by witnesses and counterexamples -/

/-- A one-point polygon inside `VIEW_BOUNDS` (lng -77.0, lat 41.0). -/
def geomInWindow : Geometry := .polygon [[{ lng := -770, lat := 410 }]]

/-- A one-point polygon strictly north of `VIEW_BOUNDS` (lat 45.0 > 42.6). -/
def geomNorthOfWindow : Geometry := .polygon [[{ lng := -770, lat := 450 }]]

/-- A one-point polygon strictly south of `VIEW_BOUNDS` (lat 38.0 < 39.5). -/
def geomSouthOfWindow : Geometry := .polygon [[{ lng := -770, lat := 380 }]]

/-- A 200 zone response carrying the given geometry field. -/
def zoneRespOk (g : Option Geometry) : Response (Option Geometry) :=
  { time := 100, status := 200, body := g }

/-- A zone environment answering every URL with the same response. -/
def constZoneEnv (g : Option Geometry) : ZoneEnv := fun _ => zoneRespOk g

/-- Tight-cap configuration used by the C1 witness: global cap 2, everything
else as in the source constants. -/
def c1Cfg : Config := { defaultConfig with globalZoneFetchCap := 2 }

/-- One alert demanding five PA zone fetches — demand 5 exceeds the cap 2. -/
def c1Alert : Alert :=
  { event := "Flood Warning", geometry := none,
    affectedZones := some
      ["https://api.weather.gov/zones/forecast/PAZ001",
       "https://api.weather.gov/zones/forecast/PAZ002",
       "https://api.weather.gov/zones/forecast/PAZ003",
       "https://api.weather.gov/zones/forecast/PAZ004",
       "https://api.weather.gov/zones/forecast/PAZ005"] }

/-- Run environment for the C1 witness. -/
def c1Renv : RunEnv :=
  { mainResp := { time := 1000, status := 200, body := [c1Alert] },
    zoneEnv := constZoneEnv (some geomInWindow) }

/-- A state whose counter already sits at the (witness) cap of 2. -/
def c1FullState : ZoneState :=
  { zoneFetches := 2, netFetches := 2, clock := 0, cache := [] }

/-- An alert that already carries (in-window) geometry, plus PA zone refs it
must never fetch. -/
def c8Alert : Alert :=
  { event := "Wind Advisory", geometry := some geomInWindow,
    affectedZones := some ["https://api.weather.gov/zones/forecast/PAZ001"] }

/-- A mid-run state for the C8 witness. -/
def c8State : ZoneState :=
  { zoneFetches := 7, netFetches := 3, clock := 500, cache := [] }

/-- An alert whose references are a county zone and a four-digit "PAZ" URL:
neither matches the PA forecast-zone pattern. -/
def c9Alert : Alert :=
  { event := "Flood Watch", geometry := none,
    affectedZones := some
      ["https://api.weather.gov/zones/county/PAC077",
       "https://api.weather.gov/zones/forecast/PAZ0711"] }

/-- A fresh per-run state. -/
def freshState : ZoneState :=
  { zoneFetches := 0, netFetches := 0, clock := 0, cache := [] }

/-- A state whose cache already holds an in-window geometry for `PAZ001`. -/
def c10State : ZoneState :=
  { zoneFetches := 3, netFetches := 1, clock := 250,
    cache := [("https://api.weather.gov/zones/forecast/PAZ001", some geomInWindow)] }

/-- Main response slower than the main timeout: the fetch aborts. -/
def c4TimeoutRenv : RunEnv :=
  { mainResp := { time := 16000, status := 200, body := [] },
    zoneEnv := constZoneEnv none }

/-- Main response with a 500 status. -/
def c4HttpRenv : RunEnv :=
  { mainResp := { time := 1000, status := 500, body := [] },
    zoneEnv := constZoneEnv none }

/-- A previously rendered layer. -/
def c4Prev : List Alert :=
  [{ event := "Winter Storm Warning", geometry := some geomInWindow,
     affectedZones := none }]

/-- A geometry-less alert whose single PA zone resolves in 6 s. -/
def c5Alert1 : Alert :=
  { event := "Flood Warning", geometry := none,
    affectedZones := some ["https://api.weather.gov/zones/forecast/PAZ071"] }

/-- A second qualifying alert with direct in-window geometry. -/
def c5Alert2 : Alert :=
  { event := "Flood Warning", geometry := some geomInWindow,
    affectedZones := none }

/-- Run environment for the C5 witness: the main fetch takes 15 s (just under
its 15 s timeout) and each zone fetch 6 s, so after resolving the first alert
the clock reads 21 s > 20 s and the loop must stop before the second. -/
def c5Renv : RunEnv :=
  { mainResp := { time := 15000, status := 200, body := [c5Alert1, c5Alert2] },
    zoneEnv := fun _ => { time := 6000, status := 200, body := some geomInWindow } }

/-- The C5 witness run's result. -/
def c5Result : RunResult :=
  match fetchAlertsRun defaultConfig c5Renv quietSignal [] with
  | .ok r => r
  | _ => { output := [], partialFlag := false, finalState := freshState }

/-- The response used in the C3 counterexample: a 2xx body that takes 16 s,
slower than both the 5 s cancellation and the 15 s main timeout. -/
def c3Resp : Response (List Alert) := { time := 16000, status := 200, body := [] }

/-- A cancellation signal firing 5 s in. -/
def c3CancelSig : Signal := { alreadyAborted := false, firesAt := some 5000 }

/-- A geometry-less alert whose two PA zones straddle the view window. -/
def c7Alert : Alert :=
  { event := "Coastal Flood Warning", geometry := none,
    affectedZones := some
      ["https://api.weather.gov/zones/forecast/PAZ101",
       "https://api.weather.gov/zones/forecast/PAZ102"] }

/-- Zone environment for C7: PAZ101 resolves north of the window, PAZ102
south of it; neither bounding box overlaps the window, but their union's
bounding box does. -/
def c7Env : ZoneEnv := fun u =>
  if u = "https://api.weather.gov/zones/forecast/PAZ101"
  then zoneRespOk (some geomNorthOfWindow)
  else zoneRespOk (some geomSouthOfWindow)

/-- The alert used by the C7 witness: direct in-window geometry. -/
def c7wAlert : Alert :=
  { event := "Winter Storm Warning", geometry := some geomInWindow,
    affectedZones := none }

/-- The run used by the C7 witness. -/
def c7wRenv : RunEnv :=
  { mainResp := { time := 1000, status := 200, body := [c7wAlert] },
    zoneEnv := constZoneEnv none }

/-- The C7 witness run's result. -/
def c7wRes : RunResult :=
  match fetchAlertsRun defaultConfig c7wRenv quietSignal [] with
  | .ok r => r
  | _ => { output := [], partialFlag := false, finalState := freshState }

/-- Items for the C6 witness. -/
def c6Items : List String := ["a", "b", "c"]

/-- Mapper for the C6 witness (always succeeds). -/
def c6Run : String → Nat → Except Unit String := fun x _ => .ok (x ++ "!")

/-- Slot outcomes for the C6 witness. -/
def c6Outcome : Nat → Option String := mwcOutcome c6Items c6Run

/-- Final pool state reached by the C6 witness schedule. -/
def c6Final : MapperState (Option String) :=
  { nextIdx := 3, claimed := [],
    results := [some (some "a!"), some (some "b!"), some (some "c!")] }

/-- Output rendered by one run's completion (a failed run renders nothing and
leaves the layer alone). -/
def runOutputOf : NetResult RunResult → List Alert
  | .ok r => r.output
  | .abortError => []
  | .httpError _ => []

/-- Final clock of a successful run. -/
def runClockOf : NetResult RunResult → Nat
  | .ok r => r.finalState.clock
  | .abortError => 0
  | .httpError _ => 0

/-- The alert layer after a chronological sequence of render events, each
being `clearLayers()` + `addData(out)` (src/maps/app.js:426-427): the
last render wins. -/
def lastRender (prev : List Alert) (renders : List (List Alert)) : List Alert :=
  renders.getLast?.getD prev

/-- Run A's pending alert in the C2 trace: geometry must come from one PA
zone whose fetch takes 5 s. -/
def c2AlertA : Alert :=
  { event := "Flood Warning", geometry := none,
    affectedZones := some ["https://api.weather.gov/zones/forecast/PAZ071"] }

/-- Zone endpoints as run A sees them: every zone answers in 5 s with
in-window geometry. -/
def c2ZoneEnvA : ZoneEnv :=
  fun _ => { time := 5000, status := 200, body := some geomInWindow }

/-- Run A's per-run state at the moment run B aborts it: 6 s elapsed, main
fetch long done, one alert still pending. -/
def c2StateA : ZoneState :=
  { zoneFetches := 0, netFetches := 0, clock := 6000, cache := [] }

/-- Run B's single alert: direct in-window geometry, no zone work. -/
def c2AlertB : Alert :=
  { event := "Winter Storm Warning", geometry := some geomInWindow,
    affectedZones := none }

/-- Run B's environment: the main fetch answers in 1 s. -/
def c2RenvB : RunEnv :=
  { mainResp := { time := 1000, status := 200, body := [c2AlertB] },
    zoneEnv := constZoneEnv none }

/-- Run A's continuation after the abort: the source's per-alert loop never
re-checks `abort.signal.aborted`, so A resumes with its (now aborted) signal
threaded into every later zone fetch. -/
def c2ContA : List Alert × ZoneState :=
  processAlertsLoop defaultConfig c2ZoneEnvA abortedSignal [c2AlertA] c2StateA []

/-- Run B, started at the abort moment. -/
def c2RunB : NetResult RunResult :=
  fetchAlertsRun defaultConfig c2RenvB quietSignal []

/-- The invariant holds initially. -/
theorem mwcInv_init (σ : Type) (n : Nat) (outcome : Nat → σ) :
    MwcInv n outcome (mwcInit σ n) := by
  refine ⟨?_, Nat.zero_le _, ?_, List.nodup_nil, ?_, ?_⟩
  · simp [mwcInit]
  · intro j hj; simp [mwcInit] at hj
  · intro k hk hk2; simp [mwcInit] at hk
  · intro k hk _
    simp [mwcInit, List.get?_eq_getElem?, List.getElem?_replicate, hk]

/-- Each scheduler step preserves the invariant. -/
theorem mwcInv_step {σ : Type} {n W : Nat} {outcome : Nat → σ}
    {s t : MapperState σ} (hstep : MwcStep n W outcome s t)
    (hinv : MwcInv n outcome s) : MwcInv n outcome t := by
  obtain ⟨lenOk, idxLe, claimedLt, nodup, finished, unfinished⟩ := hinv
  cases hstep with
  | claim h hW =>
    refine ⟨lenOk, h, ?_, ?_, ?_, ?_⟩ <;> dsimp only
    · intro j hj
      rcases List.mem_cons.mp hj with rfl | hj
      · exact Nat.lt_succ_self _
      · exact Nat.lt_succ_of_lt (claimedLt j hj)
    · exact List.nodup_cons.mpr ⟨fun hmem => Nat.lt_irrefl _ (claimedLt _ hmem), nodup⟩
    · intro k hk hk2
      have hne : k ≠ s.nextIdx := fun he => hk2 (he ▸ List.mem_cons_self _ _)
      have hk2' : k ∉ s.claimed := fun hm => hk2 (List.mem_cons_of_mem _ hm)
      exact finished k (by omega) hk2'
    · intro k hk hk2
      rcases hk2 with hge | hmem
      · exact unfinished k hk (Or.inl (by omega))
      · rcases List.mem_cons.mp hmem with heq | hmem
        · exact unfinished k hk (Or.inl (Nat.le_of_eq heq.symm))
        · exact unfinished k hk (Or.inr hmem)
  | finish idx h =>
    have hidxLt : idx < s.nextIdx := claimedLt idx h
    refine ⟨?_, idxLe, ?_, nodup.erase idx, ?_, ?_⟩ <;> dsimp only
    · simpa using lenOk
    · intro j hj; exact claimedLt j (List.mem_of_mem_erase hj)
    · intro k hk hk2
      by_cases hke : k = idx
      · subst hke
        have hlen : k < s.results.length := by omega
        simp [List.get?_eq_getElem?, List.getElem?_set_self hlen]
      · have hk2' : k ∉ s.claimed := by
          intro hmem
          exact hk2 ((nodup.mem_erase_iff).mpr ⟨hke, hmem⟩)
        have := finished k hk hk2'
        simpa [List.get?_eq_getElem?, List.getElem?_set_ne (fun he => hke he.symm)]
          using this
    · intro k hk hk2
      have hke : k ≠ idx := by
        rintro rfl
        rcases hk2 with hge | hmem
        · omega
        · exact ((nodup.mem_erase_iff).mp hmem).1 rfl
      have hk2' : s.nextIdx ≤ k ∨ k ∈ s.claimed := by
        rcases hk2 with hge | hmem
        · exact Or.inl hge
        · exact Or.inr (List.mem_of_mem_erase hmem)
      have := unfinished k hk hk2'
      simpa [List.get?_eq_getElem?, List.getElem?_set_ne (fun he => hke he.symm)]
        using this

/-- The invariant holds after any number of steps from the initial state. -/
theorem mwcInv_exec {σ : Type} {n W : Nat} {outcome : Nat → σ}
    {s : MapperState σ} (hexec : MwcExec n W outcome (mwcInit σ n) s) :
    MwcInv n outcome s := by
  induction hexec with
  | refl => exact mwcInv_init σ n outcome
  | tail _ hstep ih => exact mwcInv_step hstep ih

/-- `fetchZoneGeometry` never touches the shared zone-fetch counter. -/
theorem fetchZoneGeometry_zoneFetches (cfg : Config) (env : ZoneEnv) (sig : Signal)
    (st : ZoneState) (z : String) :
    (fetchZoneGeometry cfg env sig st z).2.zoneFetches = st.zoneFetches := by
  unfold fetchZoneGeometry
  rcases st.cache.lookup z with _ | c
  · dsimp only
    rcases fetchJsonWithTimeout cfg.zoneTimeoutMs sig (env z) with ⟨r, dt⟩
    rcases r with b | _ | s <;> rfl
  · rfl

/-- `fetchZoneGeometry` issues at most one network request. -/
theorem fetchZoneGeometry_netFetches (cfg : Config) (env : ZoneEnv) (sig : Signal)
    (st : ZoneState) (z : String) :
    (fetchZoneGeometry cfg env sig st z).2.netFetches ≤ st.netFetches + 1 := by
  unfold fetchZoneGeometry
  rcases st.cache.lookup z with _ | c
  · dsimp only
    rcases fetchJsonWithTimeout cfg.zoneTimeoutMs sig (env z) with ⟨r, dt⟩
    rcases r with b | _ | s <;> exact Nat.le_refl _
  · exact Nat.le_succ _

/-- The state `zoneMapper` leaves behind: unchanged when the cap check at
src/maps/app.js:359 refuses the slot, and otherwise the state
`fetchZoneGeometry` produces after the counter increment. -/
theorem zoneMapper_fst (cfg : Config) (env : ZoneEnv) (sig : Signal)
    (st : ZoneState) (z : String) :
    (zoneMapper cfg env sig st z).1 =
      if cfg.globalZoneFetchCap ≤ st.zoneFetches then st
      else (fetchZoneGeometry cfg env sig
              { st with zoneFetches := st.zoneFetches + 1 } z).2 := by
  unfold zoneMapper
  by_cases hc : st.zoneFetches ≥ cfg.globalZoneFetchCap
  · rw [if_pos hc, if_pos hc]
  · rw [if_neg hc, if_neg hc]
    dsimp only
    rcases hfz : fetchZoneGeometry cfg env sig
        { st with zoneFetches := st.zoneFetches + 1 } z with ⟨r, st2⟩
    rcases r with b | _ | s
    · rcases b with _ | g
      · rfl
      · dsimp only
        by_cases hw : featureIntersectsBounds g cfg.viewBounds
        · rw [if_pos hw]
        · rw [if_neg hw]
    · rfl
    · rfl

/-- One guarded worker step preserves the cap invariant: the re-check of the
shared counter immediately before the increment makes the counter (and hence
the network-request count) stay within the global cap. -/
theorem zoneMapper_inv (cfg : Config) (env : ZoneEnv) (sig : Signal)
    (st : ZoneState) (z : String) (h : ZoneCapInv cfg.globalZoneFetchCap st) :
    ZoneCapInv cfg.globalZoneFetchCap (zoneMapper cfg env sig st z).1 := by
  obtain ⟨h1, h2⟩ := h
  rw [zoneMapper_fst]
  by_cases hc : cfg.globalZoneFetchCap ≤ st.zoneFetches
  · rw [if_pos hc]; exact ⟨h1, h2⟩
  · rw [if_neg hc]
    constructor
    · calc (fetchZoneGeometry cfg env sig
              { st with zoneFetches := st.zoneFetches + 1 } z).2.netFetches
          ≤ st.netFetches + 1 := fetchZoneGeometry_netFetches ..
        _ ≤ st.zoneFetches + 1 := Nat.succ_le_succ h1
        _ = (fetchZoneGeometry cfg env sig
              { st with zoneFetches := st.zoneFetches + 1 } z).2.zoneFetches := by
            rw [fetchZoneGeometry_zoneFetches]
    · rw [fetchZoneGeometry_zoneFetches]
      exact Nat.succ_le_of_lt (Nat.lt_of_not_le hc)

/-- Any sequence of worker steps (any schedule over any zone list) preserves
the cap invariant. -/
theorem mapZones_inv (cfg : Config) (env : ZoneEnv) (sig : Signal)
    (zs : List String) (st : ZoneState) (h : ZoneCapInv cfg.globalZoneFetchCap st) :
    ZoneCapInv cfg.globalZoneFetchCap (mapZones cfg env sig st zs).1 := by
  induction zs generalizing st with
  | nil => exact h
  | cons z zs ih =>
    have h1 := zoneMapper_inv cfg env sig st z h
    unfold mapZones
    dsimp only
    rcases hzm : zoneMapper cfg env sig st z with ⟨st1, g⟩
    rcases hmz : mapZones cfg env sig st1 zs with ⟨st2, gs⟩
    have := ih st1 (by rw [hzm] at h1; exact h1)
    rw [hmz] at this
    exact this

/-- The state `ensureAlertGeometry` leaves behind is either the input state or
the result of running the zone workers on some zone list. -/
theorem ensureAlertGeometry_snd (cfg : Config) (env : ZoneEnv) (sig : Signal)
    (st : ZoneState) (a : Alert) :
    (ensureAlertGeometry cfg env sig st a).2 = st ∨
      ∃ zs, (ensureAlertGeometry cfg env sig st a).2 = (mapZones cfg env sig st zs).1 := by
  unfold ensureAlertGeometry
  rcases a.geometry with _ | g
  · dsimp only
    by_cases h0 : (a.affectedZones.getD []).isEmpty
    · rw [if_pos h0]; exact Or.inl rfl
    · rw [if_neg h0]
      by_cases h1 : ((a.affectedZones.getD []).filter isPAForecastZoneUrl).isEmpty
      · rw [if_pos h1]; exact Or.inl rfl
      · rw [if_neg h1]
        by_cases h2 : cfg.globalZoneFetchCap - st.zoneFetches = 0
        · rw [if_pos h2]; exact Or.inl rfl
        · rw [if_neg h2]
          refine Or.inr ⟨(((a.affectedZones.getD []).filter isPAForecastZoneUrl).take
            cfg.maxZonesPerAlert).take (cfg.globalZoneFetchCap - st.zoneFetches), ?_⟩
          rcases hmz : mapZones cfg env sig st
            ((((a.affectedZones.getD []).filter isPAForecastZoneUrl).take
              cfg.maxZonesPerAlert).take (cfg.globalZoneFetchCap - st.zoneFetches))
            with ⟨st', geoms⟩
          rcases mergeToMultiPolygon (geoms.filterMap id) with _ | m <;> rfl
  · exact Or.inl rfl

/-- Resolving one alert preserves the cap invariant. -/
theorem ensureAlertGeometry_inv (cfg : Config) (env : ZoneEnv) (sig : Signal)
    (st : ZoneState) (a : Alert) (h : ZoneCapInv cfg.globalZoneFetchCap st) :
    ZoneCapInv cfg.globalZoneFetchCap (ensureAlertGeometry cfg env sig st a).2 := by
  rcases ensureAlertGeometry_snd cfg env sig st a with heq | ⟨zs, heq⟩
  · rw [heq]; exact h
  · rw [heq]; exact mapZones_inv cfg env sig zs st h

/-- One iteration of the per-alert loop preserves the cap invariant. -/
theorem processOneAlert_inv (cfg : Config) (env : ZoneEnv) (sig : Signal)
    (st : ZoneState) (acc : List Alert) (f : Alert)
    (h : ZoneCapInv cfg.globalZoneFetchCap st) :
    ZoneCapInv cfg.globalZoneFetchCap (processOneAlert cfg env sig st acc f).1 := by
  unfold processOneAlert
  rcases f.geometry with _ | g
  · dsimp only
    rcases hea : ensureAlertGeometry cfg env sig st f with ⟨wg, st'⟩
    have := ensureAlertGeometry_inv cfg env sig st f h
    rw [hea] at this
    exact this
  · exact h

/-- The whole per-alert loop preserves the cap invariant. -/
theorem processAlertsLoop_inv (cfg : Config) (env : ZoneEnv) (sig : Signal)
    (l : List Alert) (st : ZoneState) (acc : List Alert)
    (h : ZoneCapInv cfg.globalZoneFetchCap st) :
    ZoneCapInv cfg.globalZoneFetchCap (processAlertsLoop cfg env sig l st acc).2 := by
  induction l generalizing st acc with
  | nil => exact h
  | cons f rest ih =>
    unfold processAlertsLoop
    by_cases hb : cfg.overallTimeBudgetMs < st.clock
    · rw [if_pos hb]; exact h
    · rw [if_neg hb]
      dsimp only
      rcases hpo : processOneAlert cfg env sig st acc f with ⟨st', acc'⟩
      have := processOneAlert_inv cfg env sig st acc f h
      rw [hpo] at this
      exact ih st' acc' this

/-! ### Budget-prefix structure of the per-alert loop (towards C5) -/

/-- The budget-limited loop behaves exactly like budget-free processing of a
prefix of its input: some `k` alerts are processed, and if the loop stopped
before the end (`k < length`) then at that moment the elapsed clock had
exceeded the overall time budget. -/
theorem processAlertsLoop_prefix (cfg : Config) (env : ZoneEnv) (sig : Signal)
    (l : List Alert) (st : ZoneState) (acc : List Alert) :
    ∃ k, k ≤ l.length ∧
      processAlertsLoop cfg env sig l st acc =
        processAlertsUnbounded cfg env sig (l.take k) st acc ∧
      (k < l.length →
        cfg.overallTimeBudgetMs < (processAlertsLoop cfg env sig l st acc).2.clock) := by
  induction l generalizing st acc with
  | nil =>
    exact ⟨0, Nat.le_refl _, rfl, fun h => absurd h (Nat.not_lt_zero 0)⟩
  | cons f rest ih =>
    by_cases hb : cfg.overallTimeBudgetMs < st.clock
    · refine ⟨0, Nat.zero_le _, ?_, ?_⟩
      · rw [List.take_zero]
        unfold processAlertsLoop processAlertsUnbounded
        rw [if_pos hb]
      · intro _
        unfold processAlertsLoop
        rw [if_pos hb]
        exact hb
    · rcases hpo : processOneAlert cfg env sig st acc f with ⟨st', acc'⟩
      obtain ⟨k, hk, heq, hclk⟩ := ih st' acc'
      refine ⟨k + 1, Nat.succ_le_succ hk, ?_, ?_⟩
      · show processAlertsLoop cfg env sig (f :: rest) st acc =
          processAlertsUnbounded cfg env sig ((f :: rest).take (k + 1)) st acc
        rw [List.take_succ_cons]
        unfold processAlertsLoop processAlertsUnbounded
        rw [if_neg hb, hpo]
        exact heq
      · intro hlt
        have hstep : processAlertsLoop cfg env sig (f :: rest) st acc =
            processAlertsLoop cfg env sig rest st' acc' := by
          conv_lhs => rw [processAlertsLoop]
          rw [if_neg hb, hpo]
        rw [hstep]
        exact hclk (Nat.lt_of_succ_lt_succ hlt)

/-! ### Window-culling structure (towards C7) -/

/-- The per-zone worker only ever returns a geometry that passes the
bounding-box check against the view window (the zone-level cull at
src/maps/app.js:365-366). -/
theorem zoneMapper_culls (cfg : Config) (env : ZoneEnv) (sig : Signal)
    (st : ZoneState) (z : String) (g : Geometry)
    (h : (zoneMapper cfg env sig st z).2 = some g) :
    featureIntersectsBounds g cfg.viewBounds = true := by
  unfold zoneMapper at h
  split at h
  · exact absurd h (by simp)
  · dsimp only at h
    rcases hfz : fetchZoneGeometry cfg env sig
        { st with zoneFetches := st.zoneFetches + 1 } z with ⟨r, st2⟩
    rw [hfz] at h
    rcases r with b | _ | s
    · rcases b with _ | geom
      · exact absurd h (by simp)
      · dsimp only at h
        split at h
        · rename_i hw
          cases h
          exact hw
        · exact absurd h (by simp)
    · exact absurd h (by simp)
    · exact absurd h (by simp)

/-- Every alert the loop body pushes into the accumulator passes the window
test; alerts already in the accumulator are preserved. -/
theorem processOneAlert_acc (cfg : Config) (env : ZoneEnv) (sig : Signal)
    (st : ZoneState) (acc : List Alert) (f : Alert)
    (hacc : ∀ x ∈ acc, alertIntersectsBounds x cfg.viewBounds = true) :
    ∀ x ∈ (processOneAlert cfg env sig st acc f).2,
      alertIntersectsBounds x cfg.viewBounds = true := by
  unfold processOneAlert
  rcases f.geometry with _ | g
  · dsimp only
    rcases hea : ensureAlertGeometry cfg env sig st f with ⟨wg, st'⟩
    dsimp only
    intro x hx
    by_cases hc : wg.geometry.isSome && alertIntersectsBounds wg cfg.viewBounds
    · rw [if_pos hc] at hx
      rcases List.mem_cons.mp hx with rfl | hx
      · simp only [Bool.and_eq_true] at hc
        exact hc.2
      · exact hacc x hx
    · rw [if_neg hc] at hx
      exact hacc x hx
  · dsimp only
    intro x hx
    by_cases hc : alertIntersectsBounds f cfg.viewBounds
    · rw [if_pos hc] at hx
      rcases List.mem_cons.mp hx with rfl | hx
      · exact hc
      · exact hacc x hx
    · rw [if_neg hc] at hx
      exact hacc x hx

/-- Final-gate invariant: every alert in the loop's output intersects the
view window (the gate at src/maps/app.js:409 and 422). -/
theorem processAlertsLoop_output_inWindow (cfg : Config) (env : ZoneEnv) (sig : Signal)
    (l : List Alert) (st : ZoneState) (acc : List Alert)
    (hacc : ∀ x ∈ acc, alertIntersectsBounds x cfg.viewBounds = true) :
    ∀ x ∈ (processAlertsLoop cfg env sig l st acc).1,
      alertIntersectsBounds x cfg.viewBounds = true := by
  induction l generalizing st acc with
  | nil =>
    intro x hx
    exact hacc x (List.mem_reverse.mp hx)
  | cons f rest ih =>
    by_cases hb : cfg.overallTimeBudgetMs < st.clock
    · intro x hx
      unfold processAlertsLoop at hx
      rw [if_pos hb] at hx
      exact hacc x (List.mem_reverse.mp hx)
    · intro x hx
      unfold processAlertsLoop at hx
      rw [if_neg hb] at hx
      rcases hpo : processOneAlert cfg env sig st acc f with ⟨st', acc'⟩
      rw [hpo] at hx
      have hacc' := processOneAlert_acc cfg env sig st acc f hacc
      rw [hpo] at hacc'
      exact ih st' acc' hacc' x hx

/-! ### Environment-agreement congruence (towards C9) -/

/-- `fetchZoneGeometry` consults the upstream environment only at the zone
URL it was given. -/
theorem fetchZoneGeometry_congr (cfg : Config) (sig : Signal) (st : ZoneState)
    (z : String) (env env' : ZoneEnv) (hag : env z = env' z) :
    fetchZoneGeometry cfg env sig st z = fetchZoneGeometry cfg env' sig st z := by
  unfold fetchZoneGeometry
  rw [hag]

/-- `zoneMapper` consults the upstream environment only at its zone URL. -/
theorem zoneMapper_congr (cfg : Config) (sig : Signal) (st : ZoneState)
    (z : String) (env env' : ZoneEnv) (hag : env z = env' z) :
    zoneMapper cfg env sig st z = zoneMapper cfg env' sig st z := by
  unfold zoneMapper
  dsimp only
  rw [fetchZoneGeometry_congr cfg sig
    { st with zoneFetches := st.zoneFetches + 1 } z env env' hag]

/-- `mapZones` only consults the environment at the URLs in its list. -/
theorem mapZones_congr (cfg : Config) (sig : Signal) (zs : List String)
    (st : ZoneState) (env env' : ZoneEnv) (hag : ∀ z ∈ zs, env z = env' z) :
    mapZones cfg env sig st zs = mapZones cfg env' sig st zs := by
  induction zs generalizing st with
  | nil => rfl
  | cons z zs ih =>
    unfold mapZones
    rw [zoneMapper_congr cfg sig st z env env' (hag z (List.mem_cons_self _ _))]
    dsimp only
    rcases zoneMapper cfg env' sig st z with ⟨st1, g⟩
    rw [ih st1 (fun w hw => hag w (List.mem_cons_of_mem _ hw))]

/-- `ensureAlertGeometry` only consults the environment at URLs that pass the
PA forecast-zone filter: two environments agreeing on all PA-pattern URLs
give identical resolution results on every alert and state. -/
theorem ensureAlertGeometry_congr (cfg : Config) (sig : Signal)
    (env env' : ZoneEnv)
    (hag : ∀ u, isPAForecastZoneUrl u = true → env u = env' u)
    (st : ZoneState) (a : Alert) :
    ensureAlertGeometry cfg env sig st a = ensureAlertGeometry cfg env' sig st a := by
  unfold ensureAlertGeometry
  rcases a.geometry with _ | g
  · dsimp only
    by_cases h0 : (a.affectedZones.getD []).isEmpty
    · rw [if_pos h0, if_pos h0]
    · rw [if_neg h0, if_neg h0]
      by_cases h1 : ((a.affectedZones.getD []).filter isPAForecastZoneUrl).isEmpty
      · rw [if_pos h1, if_pos h1]
      · rw [if_neg h1, if_neg h1]
        by_cases h2 : cfg.globalZoneFetchCap - st.zoneFetches = 0
        · rw [if_pos h2, if_pos h2]
        · rw [if_neg h2, if_neg h2]
          have hzs : ∀ z ∈ (((a.affectedZones.getD []).filter
              isPAForecastZoneUrl).take cfg.maxZonesPerAlert).take
              (cfg.globalZoneFetchCap - st.zoneFetches), env z = env' z := by
            intro z hz
            have hz1 := List.take_subset _ _ (List.take_subset _ _ hz)
            exact hag z (List.mem_filter.mp hz1).2
          rw [mapZones_congr cfg sig _ st env env' hzs]
  · rfl

/-! ### Claim theorems -/

/-- C1: across all alerts of a run, the zone-fetch counter — re-checked by
each worker against the global cap immediately before it is incremented and
a fetch slot is spent (src/maps/app.js:359-360) — never exceeds
`GLOBAL_ZONE_FETCH_CAP`, and therefore neither does the number of zone
network requests actually issued, regardless of how far the per-alert demand
(`Σ min(zone-list length, MAX_ZONES_PER_ALERT)`) exceeds the cap.  The last
conjunct is the last-check-before-spend discipline itself: a worker that sees
an exhausted counter spends nothing and leaves the state untouched. -/
theorem C1_global_zone_fetch_cap (cfg : Config) (renv : RunEnv) (sig : Signal)
    (cache0 : List (String × Option Geometry)) :
    runNetFetchCount (fetchAlertsRun cfg renv sig cache0) ≤ cfg.globalZoneFetchCap ∧
    runZoneFetchCount (fetchAlertsRun cfg renv sig cache0) ≤ cfg.globalZoneFetchCap ∧
    (∀ env sig' st z, cfg.globalZoneFetchCap ≤ st.zoneFetches →
      zoneMapper cfg env sig' st z = (st, none)) := by
  have hrun : runNetFetchCount (fetchAlertsRun cfg renv sig cache0) ≤
        cfg.globalZoneFetchCap ∧
      runZoneFetchCount (fetchAlertsRun cfg renv sig cache0) ≤
        cfg.globalZoneFetchCap := by
    unfold fetchAlertsRun
    rcases hm : fetchJsonWithTimeout cfg.mainAlertsTimeoutMs sig renv.mainResp
      with ⟨r, dt⟩
    rcases r with feats | _ | s
    · dsimp only
      have hinv := processAlertsLoop_inv cfg renv.zoneEnv sig (feats.filter isWWA)
        { zoneFetches := 0, netFetches := 0, clock := dt, cache := cache0 } []
        ⟨Nat.le_refl 0, Nat.zero_le _⟩
      rcases hpl : processAlertsLoop cfg renv.zoneEnv sig (feats.filter isWWA)
        { zoneFetches := 0, netFetches := 0, clock := dt, cache := cache0 } []
        with ⟨out, stf⟩
      rw [hpl] at hinv
      exact ⟨Nat.le_trans hinv.1 hinv.2, hinv.2⟩
    · exact ⟨Nat.zero_le _, Nat.zero_le _⟩
    · exact ⟨Nat.zero_le _, Nat.zero_le _⟩
  refine ⟨hrun.1, hrun.2, ?_⟩
  intro env sig' st z h
  unfold zoneMapper
  rw [if_pos h]

/-- Witness for C1: with cap 2 and one alert referencing five PA zones the
run issues at most two network fetches, and a worker that sees the exhausted
counter is a no-op. -/
theorem C1_global_zone_fetch_cap_witness :
    runNetFetchCount (fetchAlertsRun c1Cfg c1Renv quietSignal []) ≤ 2 ∧
    zoneMapper c1Cfg c1Renv.zoneEnv quietSignal c1FullState "z" =
      (c1FullState, none) := by
  constructor
  · exact (C1_global_zone_fetch_cap c1Cfg c1Renv quietSignal []).1
  · exact (C1_global_zone_fetch_cap c1Cfg c1Renv quietSignal []).2.2
      c1Renv.zoneEnv quietSignal c1FullState "z" (by decide)

/-- C8: an alert that already carries geometry takes the cheap path checked
first in the resolver (src/maps/app.js:340) and first in the pipeline loop
(line 408): it is returned unchanged and the per-run state — zone-fetch
counter, network-request count, clock and cache — is untouched, so no network
activity is attributable to it. -/
theorem C8_cheap_path (cfg : Config) (env : ZoneEnv) (sig : Signal)
    (st : ZoneState) (acc : List Alert) (a : Alert) (g : Geometry)
    (h : a.geometry = some g) :
    ensureAlertGeometry cfg env sig st a = (a, st) ∧
    (processOneAlert cfg env sig st acc a).1 = st := by
  constructor
  · unfold ensureAlertGeometry
    rw [h]
  · unfold processOneAlert
    rw [h]

/-- Witness for C8 at a concrete alert that already carries geometry. -/
theorem C8_cheap_path_witness :
    ensureAlertGeometry defaultConfig (constZoneEnv none) quietSignal
      c8State c8Alert = (c8Alert, c8State) := by
  exact (C8_cheap_path defaultConfig (constZoneEnv none) quietSignal
    c8State [] c8Alert geomInWindow rfl).1

/-- C9: the resolver filters the affected-zone references through the PA
forecast-zone pattern (path ending in `/zones/forecast/PAZ` plus exactly
three digits, case-insensitive) before any truncation or fetching
(src/maps/app.js:345-347): an alert whose reference list has no PA
forecast-zone URL is returned unchanged with the state untouched (no network
activity), and — the second conjunct — resolution of ANY alert consults the
upstream environment only at URLs matching the pattern: environments that
agree on PA-pattern URLs produce identical results everywhere. -/
theorem C9_pa_zone_filter (cfg : Config) (env : ZoneEnv) (sig : Signal)
    (st : ZoneState) (a : Alert)
    (h : a.geometry = none)
    (hz : (a.affectedZones.getD []).filter isPAForecastZoneUrl = []) :
    ensureAlertGeometry cfg env sig st a = (a, st) ∧
    (∀ env' : ZoneEnv, (∀ u, isPAForecastZoneUrl u = true → env u = env' u) →
      ∀ st' a', ensureAlertGeometry cfg env sig st' a' =
        ensureAlertGeometry cfg env' sig st' a') := by
  constructor
  · unfold ensureAlertGeometry
    rw [h]
    dsimp only
    by_cases h0 : (a.affectedZones.getD []).isEmpty
    · rw [if_pos h0]
    · rw [if_neg h0, if_pos (by rw [hz]; rfl)]
  · intro env' hag st' a'
    exact ensureAlertGeometry_congr cfg sig env env' hag st' a'

/-- Witness for C9: `c9Alert` resolves to itself with no state change, even
under an environment that would answer any request with in-window geometry. -/
theorem C9_pa_zone_filter_witness :
    ensureAlertGeometry defaultConfig (constZoneEnv (some geomInWindow))
      quietSignal freshState c9Alert = (c9Alert, freshState) := by
  exact (C9_pa_zone_filter defaultConfig (constZoneEnv (some geomInWindow))
    quietSignal freshState c9Alert rfl (by decide)).1

/-- C10: a worker that passes the global-cap check increments the shared
counter (src/maps/app.js:360) BEFORE `fetchZoneGeometry` consults the
geometry cache (line 320), so a cache hit — which issues no network request,
advances no clock and writes no cache entry — still consumes one unit of the
global cap: the resulting state differs from the input state exactly by
`zoneFetches + 1`. -/
theorem C10_cache_hit_consumes_cap (cfg : Config) (env : ZoneEnv) (sig : Signal)
    (st : ZoneState) (z : String) (cg : Option Geometry)
    (h1 : st.zoneFetches < cfg.globalZoneFetchCap)
    (h2 : st.cache.lookup z = some cg) :
    zoneMapper cfg env sig st z =
      ({ st with zoneFetches := st.zoneFetches + 1 },
        match cg with
        | some g => if featureIntersectsBounds g cfg.viewBounds then some g else none
        | none => none) := by
  unfold zoneMapper
  rw [if_neg (Nat.not_le.mpr h1)]
  dsimp only
  unfold fetchZoneGeometry
  dsimp only
  simp only [h2]
  rcases cg with _ | g
  · rfl
  · by_cases hw : featureIntersectsBounds g cfg.viewBounds = true
    · simp [hw]
    · simp [hw]

/-- Witness for C10: a cached in-window zone geometry under a half-used cap:
the counter moves 3 → 4 while network count, clock and cache stay put. -/
theorem C10_cache_hit_consumes_cap_witness :
    zoneMapper defaultConfig (constZoneEnv none) quietSignal c10State
        "https://api.weather.gov/zones/forecast/PAZ001" =
      ({ c10State with zoneFetches := 4 }, some geomInWindow) := by
  rw [C10_cache_hit_consumes_cap defaultConfig (constZoneEnv none) quietSignal
    c10State "https://api.weather.gov/zones/forecast/PAZ001"
    (some geomInWindow) (by decide) rfl]
  decide

/-- Successful `fetchJsonWithTimeout` calls return the response's body after
the response's full latency. -/
theorem fetchJsonWithTimeout_ok {α : Type} (ms : Nat) (sig : Signal)
    (resp : Response α) (b : α) (dt : Nat)
    (h : fetchJsonWithTimeout ms sig resp = (.ok b, dt)) :
    b = resp.body ∧ dt = resp.time := by
  unfold fetchJsonWithTimeout at h
  split at h
  · exact absurd h (by simp)
  · split at h
    · exact absurd h (by simp)
    · simp only [Prod.mk.injEq, NetResult.ok.injEq] at h
      exact ⟨h.1.symm, h.2.symm⟩

/-- C4: when the main active-alerts fetch fails — by abort (timeout or
cancellation) or by HTTP error — the whole run fails with that failure, no
output (not even partial) is produced, and the rendered alert layer keeps its
previous contents: the `clearLayers()`/`addData()` pair at
src/maps/app.js:426-427 sits after the loop inside the `try`, so the failure
jumps straight to the `catch`, which only updates the status line. -/
theorem C4_main_fetch_failure_preserves_layer (cfg : Config) (renv : RunEnv)
    (sig : Signal) (cache0 : List (String × Option Geometry)) (prev : List Alert) :
    ((fetchJsonWithTimeout cfg.mainAlertsTimeoutMs sig renv.mainResp).1 = .abortError →
      fetchAlertsRun cfg renv sig cache0 = .abortError ∧
      fetchAlertsRender cfg renv sig cache0 prev = prev) ∧
    (∀ s, (fetchJsonWithTimeout cfg.mainAlertsTimeoutMs sig renv.mainResp).1 =
        .httpError s →
      fetchAlertsRun cfg renv sig cache0 = .httpError s ∧
      fetchAlertsRender cfg renv sig cache0 prev = prev) := by
  rcases hm : fetchJsonWithTimeout cfg.mainAlertsTimeoutMs sig renv.mainResp
    with ⟨r, dt⟩
  constructor
  · intro h
    have hr : r = .abortError := h
    subst hr
    have hrun : fetchAlertsRun cfg renv sig cache0 = .abortError := by
      unfold fetchAlertsRun
      rw [hm]
    refine ⟨hrun, ?_⟩
    unfold fetchAlertsRender
    rw [hrun]
  · intro s h
    have hr : r = .httpError s := h
    subst hr
    have hrun : fetchAlertsRun cfg renv sig cache0 = .httpError s := by
      unfold fetchAlertsRun
      rw [hm]
    refine ⟨hrun, ?_⟩
    unfold fetchAlertsRender
    rw [hrun]

/-- Witness for C4: a 16 s main response under the 15 s main timeout, and a
500 response, each leave the previously rendered layer untouched. -/
theorem C4_main_fetch_failure_preserves_layer_witness :
    fetchAlertsRender defaultConfig c4TimeoutRenv quietSignal [] c4Prev = c4Prev ∧
    fetchAlertsRender defaultConfig c4HttpRenv quietSignal [] c4Prev = c4Prev := by
  constructor
  · exact ((C4_main_fetch_failure_preserves_layer defaultConfig c4TimeoutRenv
      quietSignal [] c4Prev).1 (by decide)).2
  · exact ((C4_main_fetch_failure_preserves_layer defaultConfig c4HttpRenv
      quietSignal [] c4Prev).2 500 (by decide)).2

/-- C5: a successful run equals budget-free processing of a prefix of the
qualifying alerts, starting from the clock value the main fetch left behind:
the time budget is consulted at the top of each per-alert iteration, a hit
stops iteration immediately (the processed prefix is kept, the remainder
omitted), stopping early forces the partial flag, and the partial flag is
true exactly when the loop stopped early or the elapsed clock exceeded the
budget by the end (the flag is recomputed from the wall clock at
src/maps/app.js:437; since no awaits separate the loop from that line, the
clock there is the loop's final clock, so the flag is true iff the budget
was crossed while some alert was still being — or waiting to be —
processed). -/
theorem C5_time_budget (cfg : Config) (renv : RunEnv) (sig : Signal)
    (cache0 : List (String × Option Geometry)) (r : RunResult)
    (h : fetchAlertsRun cfg renv sig cache0 = .ok r) :
    ∃ k, k ≤ (renv.mainResp.body.filter isWWA).length ∧
      (r.output, r.finalState) =
        processAlertsUnbounded cfg renv.zoneEnv sig
          ((renv.mainResp.body.filter isWWA).take k)
          { zoneFetches := 0, netFetches := 0, clock := renv.mainResp.time,
            cache := cache0 } [] ∧
      (k < (renv.mainResp.body.filter isWWA).length → r.partialFlag = true) ∧
      (r.partialFlag = true ↔
        (k < (renv.mainResp.body.filter isWWA).length ∨
          cfg.overallTimeBudgetMs < r.finalState.clock)) := by
  unfold fetchAlertsRun at h
  rcases hm : fetchJsonWithTimeout cfg.mainAlertsTimeoutMs sig renv.mainResp
    with ⟨mr, dt⟩
  rw [hm] at h
  rcases mr with feats | _ | s
  · obtain ⟨hb, ht⟩ := fetchJsonWithTimeout_ok cfg.mainAlertsTimeoutMs sig
      renv.mainResp feats dt hm
    subst hb; subst ht
    dsimp only at h
    rcases hpl : processAlertsLoop cfg renv.zoneEnv sig
        (renv.mainResp.body.filter isWWA)
        { zoneFetches := 0, netFetches := 0, clock := renv.mainResp.time,
          cache := cache0 } [] with ⟨out, stf⟩
    rw [hpl] at h
    cases h
    obtain ⟨k, hk, heq, hclk⟩ := processAlertsLoop_prefix cfg renv.zoneEnv sig
      (renv.mainResp.body.filter isWWA)
      { zoneFetches := 0, netFetches := 0, clock := renv.mainResp.time,
        cache := cache0 } []
    rw [hpl] at heq
    rw [hpl] at hclk
    refine ⟨k, hk, ?_, ?_, ?_⟩
    · exact heq ▸ rfl
    · intro hlt
      have := hclk hlt
      simpa [decide_eq_true_eq] using this
    · constructor
      · intro hp
        exact Or.inr (by simpa [decide_eq_true_eq] using hp)
      · intro hor
        rcases hor with hlt | hcl
        · have := hclk hlt
          simpa [decide_eq_true_eq] using this
        · simpa [decide_eq_true_eq] using hcl
  · exact absurd h (by simp)
  · exact absurd h (by simp)

/-- Witness for C5: the witness run is marked partial (its clock ends at
21 s > 20 s after completing one of the two qualifying alerts). -/
theorem C5_time_budget_witness : c5Result.partialFlag = true := by
  obtain ⟨k, hk, heq, hpart, hiff⟩ :=
    C5_time_budget defaultConfig c5Renv quietSignal [] c5Result rfl
  exact hiff.mpr (Or.inr (by decide))

/-- C3 counterexample: the external cancellation firing first and the
internal timeout firing first produce the SAME outcome value — both abort
controllers funnel into the one combined controller, whose rejection is a
bare `AbortError` (src/maps/app.js:266-271): the caller cannot distinguish a
`Cancelled` failure from a `Timeout` failure, contradicting the claim that
they are distinguishable (indeed `fetchAlerts`'s catch at line 441 labels a
main-fetch timeout "Load canceled (refresh started)"). -/
theorem C3_cancel_vs_timeout_counterexample :
    (fetchJsonWithTimeout 15000 c3CancelSig c3Resp).1 = .abortError ∧
    (fetchJsonWithTimeout 15000 quietSignal c3Resp).1 = .abortError ∧
    (fetchJsonWithTimeout 15000 c3CancelSig c3Resp).1 =
      (fetchJsonWithTimeout 15000 quietSignal c3Resp).1 := by
  decide

/-- C3 (amended): if the external signal fires before the internal timeout
(and before the response), the outcome is the abort failure, which is
distinguishable from `HttpError` (which carries the status) and from success
— but NOT from a timeout, which produces the identical abort outcome. -/
theorem C3_cancel_first_outcome {α : Type} (ms t : Nat) (resp : Response α)
    (sig : Signal)
    (h1 : sig = { alreadyAborted := false, firesAt := some t })
    (h2 : t < ms) (h3 : t < resp.time) :
    (fetchJsonWithTimeout ms sig resp).1 = .abortError ∧
    (∀ s, (NetResult.abortError : NetResult α) ≠ .httpError s) ∧
    (∀ b : α, (NetResult.abortError : NetResult α) ≠ .ok b) ∧
    (ms < resp.time →
      (fetchJsonWithTimeout ms quietSignal resp).1 =
        (fetchJsonWithTimeout ms sig resp).1) := by
  subst h1
  have hca : combinedAbortAt ms { alreadyAborted := false, firesAt := some t } =
      min ms t := rfl
  have habort : combinedAbortAt ms { alreadyAborted := false, firesAt := some t } <
      resp.time := by
    rw [hca]
    exact Nat.lt_of_le_of_lt (Nat.min_le_right ms t) h3
  have hmain : (fetchJsonWithTimeout ms
      { alreadyAborted := false, firesAt := some t } resp).1 = .abortError := by
    unfold fetchJsonWithTimeout
    rw [if_pos habort]
  refine ⟨hmain, ?_, ?_, ?_⟩
  · intro s hcon
    cases hcon
  · intro b hcon
    cases hcon
  intro hms
  have hq : (fetchJsonWithTimeout ms quietSignal resp).1 = .abortError := by
    unfold fetchJsonWithTimeout
    rw [if_pos (show combinedAbortAt ms quietSignal < resp.time from hms)]
  rw [hq, hmain]

/-- Witness for C3 (amended) at the counterexample's concrete numbers. -/
theorem C3_cancel_first_outcome_witness :
    (fetchJsonWithTimeout 15000 c3CancelSig c3Resp).1 = .abortError ∧
    (fetchJsonWithTimeout 15000 quietSignal c3Resp).1 =
      (fetchJsonWithTimeout 15000 c3CancelSig c3Resp).1 := by
  obtain ⟨ha, _, _, hto⟩ := C3_cancel_first_outcome 15000 5000 c3Resp c3CancelSig
    rfl (by decide) (by decide)
  exact ⟨ha, hto (by decide)⟩

/-- C7 counterexample: the zone-level window check inside the resolver
(src/maps/app.js:365-366) decides inclusion, not only the final gate.  For
`c7Alert` the code culls both zone geometries before merging, so the alert is
excluded; checking the window only on the merged geometry at the final gate —
the behaviour the claim asserts — would have included it, because the merged
bounding box spans the window even though neither sub-geometry's does. -/
theorem C7_window_cull_counterexample :
    includeAlertCode defaultConfig c7Env quietSignal freshState c7Alert = false ∧
    includeAlertFinalGateOnly defaultConfig c7Env quietSignal freshState c7Alert
      = true ∧
    featureIntersectsBounds geomNorthOfWindow VIEW_BOUNDS = false ∧
    featureIntersectsBounds geomSouthOfWindow VIEW_BOUNDS = false := by
  decide

/-- C7 (amended): window culling happens at TWO points: the resolver drops
each resolved zone geometry whose bounding box misses the view window before
merging, and the final output gate re-checks the merged geometry — so every
alert in a run's output intersects the window, and an alert whose merged
geometry misses the window is excluded. -/
theorem C7_window_culling (cfg : Config) (env : ZoneEnv) (sig : Signal) :
    (∀ st z g, (zoneMapper cfg env sig st z).2 = some g →
      featureIntersectsBounds g cfg.viewBounds = true) ∧
    (∀ renv cache0 r, fetchAlertsRun cfg renv sig cache0 = .ok r →
      ∀ f ∈ r.output, alertIntersectsBounds f cfg.viewBounds = true) := by
  constructor
  · intro st z g h
    exact zoneMapper_culls cfg env sig st z g h
  · intro renv cache0 r h
    unfold fetchAlertsRun at h
    rcases hm : fetchJsonWithTimeout cfg.mainAlertsTimeoutMs sig renv.mainResp
      with ⟨mr, dt⟩
    rw [hm] at h
    rcases mr with feats | _ | s
    · dsimp only at h
      rcases hpl : processAlertsLoop cfg renv.zoneEnv sig (feats.filter isWWA)
          { zoneFetches := 0, netFetches := 0, clock := dt, cache := cache0 } []
        with ⟨out, stf⟩
      rw [hpl] at h
      cases h
      intro f hf
      have hall := processAlertsLoop_output_inWindow cfg renv.zoneEnv sig
        (feats.filter isWWA)
        { zoneFetches := 0, netFetches := 0, clock := dt, cache := cache0 } []
        (fun x hx => absurd hx (List.not_mem_nil x))
      rw [hpl] at hall
      exact hall f hf
    · exact absurd h (by simp)
    · exact absurd h (by simp)

/-- Witness for C7 (amended): the zone-level cull clause at a concrete
resolved zone, and the final-gate clause at a concrete successful run. -/
theorem C7_window_culling_witness :
    featureIntersectsBounds geomInWindow defaultConfig.viewBounds = true ∧
    alertIntersectsBounds c7wAlert defaultConfig.viewBounds = true := by
  have hok : fetchAlertsRun defaultConfig c7wRenv quietSignal [] = .ok c7wRes := by
    rfl
  have hmem : c7wAlert ∈ c7wRes.output := by
    have hout : c7wRes.output = [c7wAlert] := by rfl
    rw [hout]
    exact List.mem_cons_self _ _
  constructor
  · exact (C7_window_culling defaultConfig (constZoneEnv (some geomInWindow))
      quietSignal).1 freshState "https://api.weather.gov/zones/forecast/PAZ001"
      geomInWindow rfl
  · exact (C7_window_culling defaultConfig (constZoneEnv none) quietSignal).2
      c7wRenv [] c7wRes hok c7wAlert hmem

/-- C6: for every schedule of the concurrency-limited mapper's workers — any
interleaving of index claims and completions under any positive concurrency
limit — the final results array has the input's length and slot `k` holds
exactly the mapper's outcome on `items[k]` (with a thrown failure caught and
recorded as `null`), regardless of the order in which slots complete; one
item's failure constrains no other slot.  (With `limit = 0` and a nonempty
input no `claim` step is ever enabled, so no execution completes; the
`1 ≤ limit` hypothesis mirrors the claim's assumption.) -/
theorem C6_mapper_positional_results {α β : Type} (items : List α) (limit : Nat)
    (run : α → Nat → Except Unit β) (hlim : 1 ≤ limit) (s : MapperState (Option β))
    (hexec : MwcExec items.length (min limit items.length) (mwcOutcome items run)
      (mwcInit (Option β) items.length) s)
    (hidx : s.nextIdx = items.length) (hcl : s.claimed = []) :
    s.results.length = items.length ∧
    (∀ k x, items.get? k = some x →
      s.results.get? k = some (some (caughtToNull (run x k)))) := by
  have hinv := mwcInv_exec hexec
  refine ⟨hinv.lenOk, ?_⟩
  intro k x hx
  have hklt : k < items.length := by
    by_contra hc
    rw [List.get?_eq_none.mpr (Nat.le_of_not_lt hc)] at hx
    cases hx
  have hfin := hinv.finished k (by rw [hidx]; exact hklt)
    (by rw [hcl]; exact List.not_mem_nil k)
  rw [hfin]
  unfold mwcOutcome
  rw [hx]

/-- Witness for C6: items `[a, b, c]` with three workers, where slot 1 ("b")
completes LAST (completion order 0, 2, 1): the results stay positional. -/
theorem C6_mapper_positional_results_witness :
    c6Final.results.get? 1 = some (some (caughtToNull (c6Run "b" 1))) ∧
    c6Final.results.length = 3 := by
  have e0 : MwcExec 3 3 c6Outcome (mwcInit (Option String) 3)
      (mwcInit (Option String) 3) := .refl _
  have e1 : MwcExec 3 3 c6Outcome (mwcInit (Option String) 3)
      { nextIdx := 1, claimed := [0], results := List.replicate 3 none } :=
    .tail e0 (.claim _ (by decide) (by decide))
  have e2 : MwcExec 3 3 c6Outcome (mwcInit (Option String) 3)
      { nextIdx := 2, claimed := [1, 0], results := List.replicate 3 none } :=
    .tail e1 (.claim _ (by decide) (by decide))
  have e3 : MwcExec 3 3 c6Outcome (mwcInit (Option String) 3)
      { nextIdx := 3, claimed := [2, 1, 0], results := List.replicate 3 none } :=
    .tail e2 (.claim _ (by decide) (by decide))
  have e4 : MwcExec 3 3 c6Outcome (mwcInit (Option String) 3)
      { nextIdx := 3, claimed := [2, 1],
        results := [some (c6Outcome 0), none, none] } :=
    .tail e3 (.finish _ 0 (by decide))
  have e5 : MwcExec 3 3 c6Outcome (mwcInit (Option String) 3)
      { nextIdx := 3, claimed := [1],
        results := [some (c6Outcome 0), none, some (c6Outcome 2)] } :=
    .tail e4 (.finish _ 2 (by decide))
  have e6 : MwcExec 3 3 c6Outcome (mwcInit (Option String) 3) c6Final :=
    .tail e5 (.finish _ 1 (by decide))
  have hfinal := C6_mapper_positional_results c6Items 6 c6Run (by decide)
    c6Final e6 rfl rfl
  exact ⟨hfinal.2 1 "b" rfl, hfinal.1⟩

/-- C2 evaluated at the failing trace.  Run A has passed its main fetch when
run B starts and aborts A's controller.  (i) A fetch in flight at that moment
rejects with the abort outcome — the true half of the claim.  (ii) But a zone
fetch A starts AFTER the abort completes normally: `fetchJsonWithTimeout`
registers its listener on the already-aborted signal and a past abort event
never fires it (src/maps/app.js:270), and the per-alert loop never re-checks
the signal.  (iii) Run B finishes and renders at +1 s, while A's continuation
needs 5 more seconds, so (iv) rendering the two outputs in chronological
order leaves A's output — (v) which differs from B's — as the final layer:
the superseded run overwrites the newer run's rendered alerts, refuting the
claim's convergence guarantee. -/
theorem C2_superseded_run_overwrites :
    (fetchJsonWithTimeout defaultConfig.zoneTimeoutMs
        { alreadyAborted := false, firesAt := some 0 }
        (c2ZoneEnvA "https://api.weather.gov/zones/forecast/PAZ071")).1 =
      .abortError ∧
    (fetchJsonWithTimeout defaultConfig.zoneTimeoutMs abortedSignal
        (c2ZoneEnvA "https://api.weather.gov/zones/forecast/PAZ071")).1 =
      .ok (some geomInWindow) ∧
    runClockOf c2RunB < c2ContA.2.clock - c2StateA.clock ∧
    lastRender [] [runOutputOf c2RunB, c2ContA.1] = c2ContA.1 ∧
    c2ContA.1 ≠ runOutputOf c2RunB := by
  decide

end PAAlerts
